import Mathlib

/-!
Verification development for the knowledge-graph construction and
research-opportunity synthesis engine of the RePro-Agent repository.

The Python sources embedded here are
`knowledge-graph-builder/main.py` (identifier minting, statement store,
ingestion) and `hypothesis-generator/main.py` (pattern analysis,
opportunity mining, hypothesis synthesis, report summary).

Modelling conventions:
* Python strings are `String`, Python ints are `Nat`, Python floats are `ℚ`
  (exact arithmetic; the properties proved here do not depend on rounding).
* rdflib terms are `Term` (URI references and literals; datatype tags on
  literals are dropped because no embedded operation inspects them, and
  blank nodes are omitted because none of the embedded functions create
  them).  The rdflib `Graph` is a duplicate-free `List` of triples:
  rdflib stores a set of triples, and the list fixes one iteration order,
  which the Python runtime leaves unspecified.
* Fallible Python code returns `Except String α`, the error string naming
  the exception that the interpreter would raise.
* Dict fields read with `.get` are `Option` fields (`none` = key absent);
  list-valued fields are plain lists.
-/

/-- Uppercase hexadecimal digit for `n < 16`, as produced by
`urllib.parse.quote`. -/
def hexDigit (n : Nat) : Char :=
  if n < 10 then Char.ofNat (48 + n) else Char.ofNat (55 + n)

/-- UTF-8 encoding of one character as a list of byte values, used by
`urllib.parse.quote` when percent-encoding a non-safe character. -/
def utf8Bytes (c : Char) : List Nat :=
  let n := c.toNat
  if n < 128 then [n]
  else if n < 2048 then [192 + n / 64, 128 + n % 64]
  else if n < 65536 then [224 + n / 4096, 128 + (n / 64) % 64, 128 + n % 64]
  else [240 + n / 262144, 128 + (n / 4096) % 64, 128 + (n / 64) % 64, 128 + n % 64]

/-- Characters that `urllib.parse.quote` never encodes (its `always_safe`
set: ASCII letters, digits, and `_.-~`); the builder calls `quote` with
`safe=""`, so everything else is percent-encoded. -/
def urlSafe (c : Char) : Bool :=
  c.isAlphanum || c = '_' || c = '.' || c = '-' || c = '~'

/-- One character of `urllib.parse.quote` output. -/
def quoteChar (c : Char) : List Char :=
  if urlSafe c then [c]
  else ((utf8Bytes c).map (fun b => ['%', hexDigit (b / 16), hexDigit (b % 16)])).flatten

/-- Model of `urllib.parse.quote(s, safe="")`. -/
def quote (s : String) : String :=
  String.mk ((s.toList.map quoteChar).flatten)

/-- Model of `str.replace(" ", "_")`: every space character is replaced
individually (runs of spaces are not collapsed). -/
def pyReplaceSpace (s : String) : String :=
  String.mk (s.toList.map (fun c => if c = ' ' then '_' else c))

/-- Literal values carried by RDF literals.  The XSD datatype tag attached
by the builder is dropped: no embedded operation inspects it. -/
inductive LitVal where
  | str (v : String)
  | num (q : ℚ)
  | bool (b : Bool)
deriving DecidableEq, Repr

/-- An RDF term: a URI reference or a literal. -/
inductive Term where
  | uri (s : String)
  | lit (v : LitVal)
deriving DecidableEq, Repr

/-- Shorthand for a plain string literal. -/
def litS (s : String) : Term := Term.lit (LitVal.str s)

/-- A statement: (subject, predicate, object). -/
abbrev Triple := Term × Term × Term

/-- The statement store (`rdflib.Graph`): a set of triples, modelled as a
duplicate-free list fixing one iteration order. -/
abbrev Graph := List Triple

/-- Model of `rdflib.Graph.add`: set insertion — a triple already present
is not added again. -/
def Graph.add (g : Graph) (t : Triple) : Graph :=
  if t ∈ g then g else g ++ [t]

/-- Model of `len(self.graph)`, reported as `total_triples` by
`get_statistics`. -/
def Graph.size (g : Graph) : Nat := g.length

/-- Vocabulary constants bound in `knowledge-graph-builder/main.py`. -/
def RDF_type : Term := Term.uri "http://www.w3.org/1999/02/22-rdf-syntax-ns#type"

def RDFS_label : Term := Term.uri "http://www.w3.org/2000/01/rdf-schema#label"

def SCHEMA_name : Term := Term.uri "https://schema.org/name"

def SCHEMA_abstract : Term := Term.uri "https://schema.org/abstract"

def SCHEMA_datePublished : Term := Term.uri "https://schema.org/datePublished"

def SCHEMA_identifier : Term := Term.uri "https://schema.org/identifier"

def SCHEMA_url : Term := Term.uri "https://schema.org/url"

def SCHEMA_author : Term := Term.uri "https://schema.org/author"

def SCHEMA_keywords : Term := Term.uri "https://schema.org/keywords"

def SCHEMA_affiliation : Term := Term.uri "https://schema.org/affiliation"

def SCHEMA_description : Term := Term.uri "https://schema.org/description"

def SCHEMA_ScholarlyArticle : Term := Term.uri "https://schema.org/ScholarlyArticle"

def SCHEMA_Person : Term := Term.uri "https://schema.org/Person"

def SCHEMA_Organization : Term := Term.uri "https://schema.org/Organization"

def SCHEMA_DefinedTerm : Term := Term.uri "https://schema.org/DefinedTerm"

def SCHEMA_Dataset : Term := Term.uri "https://schema.org/Dataset"

def DCTERMS_title : Term := Term.uri "http://purl.org/dc/terms/title"

def FOAF_name : Term := Term.uri "http://xmlns.com/foaf/0.1/name"

def SCIENTIFIC_SoftwareTool : Term := Term.uri "https://scientific.org/SoftwareTool"

def SCIENTIFIC_Methodology : Term := Term.uri "https://scientific.org/Methodology"

def SCIENTIFIC_Results : Term := Term.uri "https://scientific.org/Results"

def SCIENTIFIC_Conclusions : Term := Term.uri "https://scientific.org/Conclusions"

def SCIENTIFIC_usesTool : Term := Term.uri "https://scientific.org/usesTool"

def SCIENTIFIC_usesDataset : Term := Term.uri "https://scientific.org/usesDataset"

def SCIENTIFIC_usesMethodology : Term := Term.uri "https://scientific.org/usesMethodology"

def SCIENTIFIC_hasResults : Term := Term.uri "https://scientific.org/hasResults"

def SCIENTIFIC_hasConclusions : Term := Term.uri "https://scientific.org/hasConclusions"

def REPRO_reproducibilityScore : Term := Term.uri "https://reproducibility.org/reproducibilityScore"

/-- `KnowledgeGraphBuilder.create_uri`: the identifier minter.
Source: `safe_id = quote(str(identifier).replace(" ", "_"), safe="")`,
then `URIRef(f"{base}{safe_id}")`. -/
def create_uri (base : String) (identifier : String) : Term :=
  Term.uri (base ++ quote (pyReplaceSpace identifier))

/-- Author field of a metadata record: either a bare string or a mapping
with optional `name` and `affiliation` keys (`none` = key absent).
`add_author` reads them with `.get`. -/
inductive AuthorData where
  | str (value : String)
  | dict (name : Option String) (affiliation : Option String)
deriving DecidableEq, Repr

/-- Tool field of a metadata record: a bare string or a mapping with
optional `name` and `url` keys. -/
inductive ToolData where
  | str (value : String)
  | dict (name : Option String) (url : Option String)
deriving DecidableEq, Repr

/-- Dataset field of a metadata record: a bare string or a mapping with
optional `name` and `url` keys. -/
inductive DatasetData where
  | str (value : String)
  | dict (name : Option String) (url : Option String)
deriving DecidableEq, Repr

/-- `KnowledgeGraphBuilder.add_author`, as the pair (returned author URI,
triples added to `self.graph`, in insertion order).  A mapping without a
`name` key defaults to `"Unknown Author"`; the affiliation, when present,
mints an organization entity and links it. -/
def add_author (author_data : AuthorData) : Term × List Triple :=
  let author_name :=
    match author_data with
    | AuthorData.str s => s
    | AuthorData.dict n _ => n.getD "Unknown Author"
  let author_affiliation :=
    match author_data with
    | AuthorData.str _ => none
    | AuthorData.dict _ a => a
  let author_uri := create_uri "https://authors.org/" author_name
  let base := [(author_uri, RDF_type, SCHEMA_Person),
               (author_uri, FOAF_name, litS author_name),
               (author_uri, SCHEMA_name, litS author_name)]
  match author_affiliation with
  | none => (author_uri, base)
  | some aff =>
      let affiliation_uri := create_uri "https://organizations.org/" aff
      (author_uri, base ++
        [(affiliation_uri, RDF_type, SCHEMA_Organization),
         (affiliation_uri, SCHEMA_name, litS aff),
         (author_uri, SCHEMA_affiliation, affiliation_uri)])

/-- `KnowledgeGraphBuilder.add_tool`, as (returned tool URI, triples
added).  A mapping without a `name` key defaults to `"Unknown Tool"`. -/
def add_tool (tool_data : ToolData) : Term × List Triple :=
  let tool_name :=
    match tool_data with
    | ToolData.str s => s
    | ToolData.dict n _ => n.getD "Unknown Tool"
  let tool_url :=
    match tool_data with
    | ToolData.str _ => none
    | ToolData.dict _ u => u
  let tool_uri := create_uri "https://tools.org/" tool_name
  let base := [(tool_uri, RDF_type, SCIENTIFIC_SoftwareTool),
               (tool_uri, SCHEMA_name, litS tool_name)]
  match tool_url with
  | none => (tool_uri, base)
  | some u => (tool_uri, base ++ [(tool_uri, SCHEMA_url, Term.uri u)])

/-- `KnowledgeGraphBuilder.add_dataset`, as (returned dataset URI, triples
added).  A mapping without a `name` key defaults to `"Unknown Dataset"`. -/
def add_dataset (dataset_data : DatasetData) : Term × List Triple :=
  let dataset_name :=
    match dataset_data with
    | DatasetData.str s => s
    | DatasetData.dict n _ => n.getD "Unknown Dataset"
  let dataset_url :=
    match dataset_data with
    | DatasetData.str _ => none
    | DatasetData.dict _ u => u
  let dataset_uri := create_uri "https://datasets.org/" dataset_name
  let base := [(dataset_uri, RDF_type, SCHEMA_Dataset),
               (dataset_uri, SCHEMA_name, litS dataset_name)]
  match dataset_url with
  | none => (dataset_uri, base)
  | some u => (dataset_uri, base ++ [(dataset_uri, SCHEMA_url, Term.uri u)])

/-- A paper-metadata record.  `Option` fields model `.get` on the input
dict (`none` = key absent); list fields model the iterated collections. -/
structure Metadata where
  title : Option String
  abstract : Option String
  datePublished : Option String
  doi : Option String
  url : Option String
  author : List AuthorData
  keywords : List String
  methodology : Option String
  tools : List ToolData
  datasets : List DatasetData
  results : Option String
  conclusions : Option String
deriving DecidableEq, Repr

/-- The paper URI minted at the top of `add_paper_metadata`: a DOI-derived
URI when `doi` is present, else the explicit `url`, else an identifier
minted from the title.  `u` models the `str(uuid.uuid4())` drawn when the
`title` key is also absent (non-deterministic in the source). -/
def paper_uri_of (metadata : Metadata) (u : String) : Term :=
  match metadata.doi with
  | some d => Term.uri ("https://doi.org/" ++ d)
  | none =>
      match metadata.url with
      | some uu => Term.uri uu
      | none => create_uri "https://papers.org/" (metadata.title.getD u)

/-- Triples for the basic paper fields (type, title, abstract, date, doi,
url), in the order `add_paper_metadata` emits them.  The XSD date
datatype tag is dropped, as nothing embedded here inspects it. -/
def base_triples (metadata : Metadata) (paper_uri : Term) : List Triple :=
  [(paper_uri, RDF_type, SCHEMA_ScholarlyArticle)]
  ++ (match metadata.title with
      | some t => [(paper_uri, SCHEMA_name, litS t), (paper_uri, DCTERMS_title, litS t)]
      | none => [])
  ++ (match metadata.abstract with
      | some a => [(paper_uri, SCHEMA_abstract, litS a)]
      | none => [])
  ++ (match metadata.datePublished with
      | some d => [(paper_uri, SCHEMA_datePublished, litS d)]
      | none => [])
  ++ (match metadata.doi with
      | some d => [(paper_uri, SCHEMA_identifier, litS d)]
      | none => [])
  ++ (match metadata.url with
      | some uu => [(paper_uri, SCHEMA_url, Term.uri uu)]
      | none => [])

/-- Triples for the author loop of `add_paper_metadata`: each author's own
triples, then the `schema:author` edge from the paper. -/
def author_triples (metadata : Metadata) (paper_uri : Term) : List Triple :=
  (metadata.author.map (fun a =>
    (add_author a).2 ++ [(paper_uri, SCHEMA_author, (add_author a).1)])).flatten

/-- Triples for the keyword loop of `add_paper_metadata`. -/
def keyword_triples (metadata : Metadata) (paper_uri : Term) : List Triple :=
  (metadata.keywords.map (fun kw =>
    let keyword_uri := create_uri "https://keywords.org/" kw
    [(keyword_uri, RDF_type, SCHEMA_DefinedTerm),
     (keyword_uri, SCHEMA_name, litS kw),
     (paper_uri, SCHEMA_keywords, keyword_uri)])).flatten

/-- Triples for the tool loop of `add_paper_metadata`. -/
def tool_triples (metadata : Metadata) (paper_uri : Term) : List Triple :=
  (metadata.tools.map (fun t =>
    (add_tool t).2 ++ [(paper_uri, SCIENTIFIC_usesTool, (add_tool t).1)])).flatten

/-- Triples for the dataset loop of `add_paper_metadata`. -/
def dataset_triples (metadata : Metadata) (paper_uri : Term) : List Triple :=
  (metadata.datasets.map (fun d =>
    (add_dataset d).2 ++ [(paper_uri, SCIENTIFIC_usesDataset, (add_dataset d).1)])).flatten

/-- Triples for the methodology branch of `add_paper_metadata`.  The
source builds the methodology URI from `f"{metadata['title']}_method"`:
the unguarded key access raises `KeyError` when `methodology` is present
but `title` is absent. -/
def methodology_triples (metadata : Metadata) (paper_uri : Term) :
    Except String (List Triple) :=
  match metadata.methodology with
  | none => Except.ok []
  | some m =>
      match metadata.title with
      | none => Except.error "KeyError: \x27title\x27"
      | some t =>
          let method_uri := create_uri "https://methods.org/" (t ++ "_method")
          Except.ok [(method_uri, RDF_type, SCIENTIFIC_Methodology),
                     (method_uri, SCHEMA_description, litS m),
                     (paper_uri, SCIENTIFIC_usesMethodology, method_uri)]

/-- Triples for the results branch of `add_paper_metadata`; like the
methodology branch, it reads `metadata['title']` unguarded. -/
def results_triples (metadata : Metadata) (paper_uri : Term) :
    Except String (List Triple) :=
  match metadata.results with
  | none => Except.ok []
  | some r =>
      match metadata.title with
      | none => Except.error "KeyError: \x27title\x27"
      | some t =>
          let result_uri := create_uri "https://results.org/" (t ++ "_results")
          Except.ok [(result_uri, RDF_type, SCIENTIFIC_Results),
                     (result_uri, SCHEMA_description, litS r),
                     (paper_uri, SCIENTIFIC_hasResults, result_uri)]

/-- Triples for the conclusions branch of `add_paper_metadata`; it too
reads `metadata['title']` unguarded. -/
def conclusions_triples (metadata : Metadata) (paper_uri : Term) :
    Except String (List Triple) :=
  match metadata.conclusions with
  | none => Except.ok []
  | some c =>
      match metadata.title with
      | none => Except.error "KeyError: \x27title\x27"
      | some t =>
          let conclusion_uri := create_uri "https://conclusions.org/" (t ++ "_conclusions")
          Except.ok [(conclusion_uri, RDF_type, SCIENTIFIC_Conclusions),
                     (conclusion_uri, SCHEMA_description, litS c),
                     (paper_uri, SCIENTIFIC_hasConclusions, conclusion_uri)]

/-- The full sequence of triples `add_paper_metadata` inserts, in source
order, together with the returned paper URI; `Except.error` models the
`KeyError` raised by the methodology/results/conclusions branches when
`title` is absent.  (On a raise the Python store keeps the triples
inserted before the failing line; no claim concerns that partial state,
so the error carries only the exception.) -/
def paper_metadata_triples (metadata : Metadata) (u : String) :
    Except String (Term × List Triple) :=
  let paper_uri := paper_uri_of metadata u
  match methodology_triples metadata paper_uri with
  | Except.error e => Except.error e
  | Except.ok mt =>
      match results_triples metadata paper_uri with
      | Except.error e => Except.error e
      | Except.ok rt =>
          match conclusions_triples metadata paper_uri with
          | Except.error e => Except.error e
          | Except.ok ct =>
              Except.ok (paper_uri,
                base_triples metadata paper_uri
                ++ author_triples metadata paper_uri
                ++ keyword_triples metadata paper_uri
                ++ mt
                ++ tool_triples metadata paper_uri
                ++ dataset_triples metadata paper_uri
                ++ rt
                ++ ct)

/-- `KnowledgeGraphBuilder.add_paper_metadata`: inserts the emitted
triples into the store (set semantics) and returns the paper URI; `u`
models the `uuid.uuid4()` fallback drawn when neither DOI, URL nor title
is present. -/
def add_paper_metadata (metadata : Metadata) (u : String) (g : Graph) :
    Except String (Term × Graph) :=
  match paper_metadata_triples metadata u with
  | Except.error e => Except.error e
  | Except.ok (paper_uri, ts) => Except.ok (paper_uri, ts.foldl Graph.add g)

/-- Membership is preserved by `Graph.add`. -/
theorem Graph.mem_add_of_mem {g : Graph} {s t : Triple} (h : s ∈ g) : s ∈ g.add t := by
  unfold Graph.add; split
  · exact h
  · simp [h]

/-- The inserted triple is a member after `Graph.add`. -/
theorem Graph.mem_add_self (g : Graph) (t : Triple) : t ∈ g.add t := by
  unfold Graph.add; split
  · assumption
  · simp

/-- Folding insertions preserves existing members. -/
theorem mem_foldl_add_of_mem {g : Graph} {s : Triple} (l : List Triple) (h : s ∈ g) :
    s ∈ l.foldl Graph.add g := by
  induction l generalizing g with
  | nil => exact h
  | cons a l ih => exact ih (Graph.mem_add_of_mem h)

/-- Every inserted triple is a member after the fold. -/
theorem mem_foldl_add_of_mem_list {l : List Triple} {t : Triple} (g : Graph) (h : t ∈ l) :
    t ∈ l.foldl Graph.add g := by
  induction l generalizing g with
  | nil => cases h
  | cons a l ih =>
    rcases List.mem_cons.mp h with rfl | h
    · exact mem_foldl_add_of_mem l (Graph.mem_add_self g t)
    · exact ih _ h

/-- Inserting triples that are all already present leaves the store
unchanged. -/
theorem foldl_add_eq_of_subset {l : List Triple} {g : Graph} (h : ∀ t ∈ l, t ∈ g) :
    l.foldl Graph.add g = g := by
  induction l with
  | nil => rfl
  | cons a l ih =>
    have ha : Graph.add g a = g := by unfold Graph.add; simp [h a (by simp)]
    simpa [List.foldl_cons, ha] using ih (fun t ht => h t (by simp [ht]))

/-- Re-inserting the same batch of triples is a no-op. -/
theorem foldl_add_idem (l : List Triple) (g : Graph) :
    l.foldl Graph.add (l.foldl Graph.add g) = l.foldl Graph.add g :=
  foldl_add_eq_of_subset (fun _ ht => mem_foldl_add_of_mem_list g ht)

/-- Metadata records on which ingestion is stable: a title is present, or
a DOI/URL is present and none of the three branches that read
`metadata['title']` unguarded (methodology, results, conclusions) fires. -/
def stable_ingest_input (md : Metadata) : Prop :=
  md.title.isSome ∨
    ((md.doi.isSome ∨ md.url.isSome) ∧
      md.methodology = none ∧ md.results = none ∧ md.conclusions = none)

/-- The minted paper URI does not depend on the random uuid draw whenever
a DOI, URL or title is present. -/
theorem paper_uri_stable (md : Metadata)
    (h : md.title.isSome ∨ md.doi.isSome ∨ md.url.isSome) :
    ∀ u₁ u₂, paper_uri_of md u₁ = paper_uri_of md u₂ := by
  intro u₁ u₂
  rcases hd : md.doi with _ | d
  · rcases hu : md.url with _ | uu
    · have ht : md.title.isSome := by
        rcases h with h | h | h
        · exact h
        · simp [hd] at h
        · simp [hu] at h
      obtain ⟨t, ht⟩ := Option.isSome_iff_exists.mp ht
      simp [paper_uri_of, hd, hu, ht]
    · simp [paper_uri_of, hd, hu]
  · simp [paper_uri_of, hd]

/-- The methodology branch succeeds when the field is absent or a title is
present. -/
theorem methodology_triples_ok (md : Metadata) (p : Term)
    (h : md.methodology = none ∨ md.title.isSome) :
    ∃ l, methodology_triples md p = Except.ok l := by
  rcases hmm : md.methodology with _ | m
  · simp only [methodology_triples, hmm]
    exact ⟨_, rfl⟩
  · rcases h with h | h
    · simp [hmm] at h
    · obtain ⟨t, ht⟩ := Option.isSome_iff_exists.mp h
      simp only [methodology_triples, hmm, ht]
      exact ⟨_, rfl⟩

/-- The results branch succeeds when the field is absent or a title is
present. -/
theorem results_triples_ok (md : Metadata) (p : Term)
    (h : md.results = none ∨ md.title.isSome) :
    ∃ l, results_triples md p = Except.ok l := by
  rcases hmm : md.results with _ | r
  · simp only [results_triples, hmm]
    exact ⟨_, rfl⟩
  · rcases h with h | h
    · simp [hmm] at h
    · obtain ⟨t, ht⟩ := Option.isSome_iff_exists.mp h
      simp only [results_triples, hmm, ht]
      exact ⟨_, rfl⟩

/-- The conclusions branch succeeds when the field is absent or a title is
present. -/
theorem conclusions_triples_ok (md : Metadata) (p : Term)
    (h : md.conclusions = none ∨ md.title.isSome) :
    ∃ l, conclusions_triples md p = Except.ok l := by
  rcases hmm : md.conclusions with _ | c
  · simp only [conclusions_triples, hmm]
    exact ⟨_, rfl⟩
  · rcases h with h | h
    · simp [hmm] at h
    · obtain ⟨t, ht⟩ := Option.isSome_iff_exists.mp h
      simp only [conclusions_triples, hmm, ht]
      exact ⟨_, rfl⟩

/-- A metadata record carrying only a methodology and no title, DOI or
URL; ingesting it reaches the unguarded `metadata['title']` access. -/
def missing_title_metadata : Metadata :=
  ⟨none, none, none, none, none, [], [], some "ablation methodology", [], [], none, none⟩

/-- C5: the claim states that `add_paper_metadata` never raises and that
absent fields are simply omitted.  The code refutes it: on a record with
a `methodology` but no `title`, line 97 evaluates `metadata['title']`
and raises `KeyError`, so ingestion aborts instead of omitting the
missing field. -/
theorem claim5_keyerror_on_missing_title :
    add_paper_metadata missing_title_metadata "3f2a" [] =
      Except.error "KeyError: \x27title\x27" := rfl

/-- C6 (counterexample): the claim states that names differing only in
the run-length of interior whitespace mint the same identifier; the
minter replaces every space individually, so `"Foo  Bar"` mints
`.../Foo__Bar` while `"Foo Bar"` mints `.../Foo_Bar`. -/
theorem claim6_counterexample :
    create_uri "https://authors.org/" "Foo  Bar" ≠
      create_uri "https://authors.org/" "Foo Bar" := by decide

/-- C6 (amended): the minter is deterministic — equal (namespace, name)
inputs always yield the same identifier — but it replaces each space
character individually rather than collapsing runs, so names differing
only in interior whitespace run-length mint different identifiers, for
every namespace. -/
theorem claim6_amended :
    (∀ ns s₁ s₂ : String, s₁ = s₂ → create_uri ns s₁ = create_uri ns s₂) ∧
    (∀ ns : String, create_uri ns "Foo  Bar" ≠ create_uri ns "Foo Bar") := by
  constructor
  · intro ns s₁ s₂ h; rw [h]
  · intro ns h
    simp only [create_uri] at h
    rw [show quote (pyReplaceSpace "Foo  Bar") = "Foo__Bar" from by decide,
        show quote (pyReplaceSpace "Foo Bar") = "Foo_Bar" from by decide] at h
    have h' : ns ++ "Foo__Bar" = ns ++ "Foo_Bar" := by
      injection h
    have hl := congrArg String.length h'
    have e1 : ("Foo__Bar" : String).length = 8 := rfl
    have e2 : ("Foo_Bar" : String).length = 7 := rfl
    rw [String.length_append, String.length_append, e1, e2] at hl
    omega

/-- Witness for C6 (amended) at concrete inputs. -/
theorem claim6_amended_witness :
    create_uri "https://tools.org/" "Foo Bar" = create_uri "https://tools.org/" "Foo Bar" ∧
    create_uri "https://tools.org/" "Foo  Bar" ≠ create_uri "https://tools.org/" "Foo Bar" :=
  ⟨claim6_amended.1 "https://tools.org/" "Foo Bar" "Foo Bar" rfl,
   claim6_amended.2 "https://tools.org/"⟩

/-- A metadata record with a URL (but no title) and a methodology:
a record covered by the claim's "(or a DOI or URL)" clause. -/
def url_only_metadata : Metadata :=
  ⟨none, none, none, none, some "https://example.org/p1", [], [],
   some "grid search", [], [], none, none⟩

/-- C7 (counterexample): the claim quantifies over every record that
contains a title or a DOI or a URL; on this record with a URL but no
title, `add_paper_metadata` raises `KeyError` in the methodology branch,
so it does not return a paper identifier at all — twice-ingestion
idempotence fails vacuously but the stated claim ("returns the same
paper identifier both times") is false. -/
theorem claim7_counterexample :
    add_paper_metadata url_only_metadata "u1" [] =
      Except.error "KeyError: \x27title\x27" := rfl

/-- C7 (amended): ingestion is idempotent on every record for which the
call succeeds — a record with a title, or with a DOI or URL and none of
the title-dependent branches (methodology, results, conclusions):
both calls return the same paper identifier, the result does not depend
on the uuid draw, and the second call leaves the statement set exactly
as the first left it (no duplicate entities or statements). -/
theorem claim7_amended (md : Metadata) (u₁ u₂ : String) (g : Graph)
    (h : stable_ingest_input md) :
    ∃ p g', add_paper_metadata md u₁ g = Except.ok (p, g') ∧
            add_paper_metadata md u₂ g' = Except.ok (p, g') := by
  have hdu : md.title.isSome ∨ md.doi.isSome ∨ md.url.isSome := by
    rcases h with h | ⟨h, _⟩
    · exact Or.inl h
    · exact Or.inr h
  have hm : md.methodology = none ∨ md.title.isSome := by
    rcases h with h | ⟨_, hm, _, _⟩
    · exact Or.inr h
    · exact Or.inl hm
  have hr : md.results = none ∨ md.title.isSome := by
    rcases h with h | ⟨_, _, hr, _⟩
    · exact Or.inr h
    · exact Or.inl hr
  have hc : md.conclusions = none ∨ md.title.isSome := by
    rcases h with h | ⟨_, _, _, hc⟩
    · exact Or.inr h
    · exact Or.inl hc
  obtain ⟨mt, hmt⟩ := methodology_triples_ok md (paper_uri_of md u₁) hm
  obtain ⟨rt, hrt⟩ := results_triples_ok md (paper_uri_of md u₁) hr
  obtain ⟨ct, hct⟩ := conclusions_triples_ok md (paper_uri_of md u₁) hc
  have hts : ∀ u, paper_metadata_triples md u = Except.ok (paper_uri_of md u₁,
      base_triples md (paper_uri_of md u₁)
      ++ author_triples md (paper_uri_of md u₁)
      ++ keyword_triples md (paper_uri_of md u₁)
      ++ mt
      ++ tool_triples md (paper_uri_of md u₁)
      ++ dataset_triples md (paper_uri_of md u₁)
      ++ rt ++ ct) := by
    intro u
    have hp : paper_uri_of md u = paper_uri_of md u₁ := paper_uri_stable md hdu u u₁
    simp only [paper_metadata_triples, hp, hmt, hrt, hct]
  refine ⟨paper_uri_of md u₁,
    (base_triples md (paper_uri_of md u₁)
      ++ author_triples md (paper_uri_of md u₁)
      ++ keyword_triples md (paper_uri_of md u₁)
      ++ mt
      ++ tool_triples md (paper_uri_of md u₁)
      ++ dataset_triples md (paper_uri_of md u₁)
      ++ rt ++ ct).foldl Graph.add g, ?_, ?_⟩
  · simp only [add_paper_metadata, hts u₁]
  · simp only [add_paper_metadata, hts u₂, foldl_add_idem]

/-- Witness for C7 (amended) at a concrete titled record. -/
theorem claim7_amended_witness :
    ∃ p g', add_paper_metadata
        ⟨some "Deep Graphs", none, none, none, none, [], [], none, [], [], none, none⟩
        "uuidA" [] = Except.ok (p, g') ∧
      add_paper_metadata
        ⟨some "Deep Graphs", none, none, none, none, [], [], none, [], [], none, none⟩
        "uuidB" g' = Except.ok (p, g') :=
  claim7_amended _ "uuidA" "uuidB" [] (Or.inl (by decide))

/-- C8: the statement store has set semantics — inserting a triple that
is already present leaves `size()` unchanged, and insertion preserves
freedom from duplicate statements. -/
theorem claim8_store_set_semantics (g : Graph) (t : Triple) :
    (t ∈ g → (g.add t).size = g.size) ∧ (g.Nodup → (g.add t).Nodup) := by
  constructor
  · intro h
    unfold Graph.add
    simp [h]
  · intro h
    unfold Graph.add
    split
    · exact h
    · next hmem => simp [List.nodup_append, h, hmem]

/-- A concrete statement used to exercise the store lemmas. -/
def example_triple : Triple :=
  (Term.uri "https://papers.org/P", RDF_type, SCHEMA_ScholarlyArticle)

/-- Witness for C8 at a concrete store and triple. -/
theorem claim8_witness :
    Graph.size (Graph.add [example_triple] example_triple) = Graph.size [example_triple] ∧
    (Graph.add [example_triple] example_triple).Nodup :=
  ⟨(claim8_store_set_semantics [example_triple] example_triple).1 (by decide),
   (claim8_store_set_semantics [example_triple] example_triple).2 (by decide)⟩

/-- C10: an author mapping without a `name` key is minted the identifier
`https://authors.org/Unknown_Author`, whatever its affiliation, so all
anonymous authors collapse onto one Person entity. -/
theorem claim10_unknown_author_collapses :
    ∀ aff : Option String,
      (add_author (AuthorData.dict none aff)).1 =
        Term.uri "https://authors.org/Unknown_Author" ∧
      ∀ aff₂ : Option String,
        (add_author (AuthorData.dict none aff)).1 =
          (add_author (AuthorData.dict none aff₂)).1 := by
  have key : ∀ aff : Option String,
      (add_author (AuthorData.dict none aff)).1 =
        Term.uri "https://authors.org/Unknown_Author" := by
    intro aff
    cases aff
    · rfl
    · rfl
  exact fun aff => ⟨key aff, fun aff₂ => (key aff).trans (key aff₂).symm⟩

/-- Model of Python `str()` on an RDF term: URIs print as their string,
string literals as their lexical value, booleans as `True`/`False`;
numeric literals are rendered through `ℚ`'s printer (the exact float
formatting is irrelevant to every proved property). -/
def pyStr : Term → String
  | Term.uri s => s
  | Term.lit (LitVal.str s) => s
  | Term.lit (LitVal.num q) => toString q
  | Term.lit (LitVal.bool b) => if b then "True" else "False"

/-- Digits-only parse of a nonempty character list. -/
def parse_digits (cs : List Char) : Option Nat :=
  if cs.isEmpty then none
  else cs.foldl (fun acc c =>
    match acc with
    | none => none
    | some n => if c.isDigit then some (n * 10 + (c.toNat - 48)) else none) (some 0)

/-- Model of Python `float(s)` on plain decimal notation
(`[+-]?digits[.digits]`); other forms are treated as `ValueError`.
The scores this analyzer reads are emitted by the builder as numeric
literals, so the string path is never the deciding one. -/
def parse_decimal (s : String) : Option ℚ :=
  let cs := s.toList
  let signAndRest : ℚ × List Char :=
    match cs with
    | '-' :: r => (-1, r)
    | '+' :: r => (1, r)
    | r => (1, r)
  match signAndRest.2.splitOn '.' with
  | [intPart] => (parse_digits intPart).map (fun n => signAndRest.1 * n)
  | [intPart, fracPart] =>
      match parse_digits intPart, parse_digits fracPart with
      | some i, some f =>
          some (signAndRest.1 * ((i : ℚ) + (f : ℚ) / ((10 : ℚ) ^ fracPart.length)))
      | _, _ => none
  | _ => none

/-- Model of Python `float(obj)` on an RDF term: numeric literals
convert; booleans convert to 0/1; strings (and URIRefs, which subclass
`str`) parse as decimals; anything else raises `ValueError` (`none`). -/
def pyFloat : Term → Option ℚ
  | Term.lit (LitVal.num q) => some q
  | Term.lit (LitVal.bool b) => some (if b then 1 else 0)
  | Term.lit (LitVal.str s) => parse_decimal s
  | Term.uri s => parse_decimal s

/-- Model of `defaultdict(int)[k] += 1`: increment in place, appending a
new key at the end (Python dicts preserve insertion order). -/
def bump : List (String × Nat) → String → List (String × Nat)
  | [], k => [(k, 1)]
  | (k0, v) :: rest, k =>
      if k0 = k then (k0, v + 1) :: rest else (k0, v) :: bump rest k

/-- Model of `set.add` on a set represented as a duplicate-free list. -/
def pySetAdd {α : Type} [DecidableEq α] (l : List α) (x : α) : List α :=
  if x ∈ l then l else l ++ [x]

/-- The runtime type of a usage table.  `analyze_graph_patterns` builds
its tables as `defaultdict(int)`; `collections.Counter` is the type whose
`most_common` method `find_research_opportunities` tries to call. -/
inductive CounterLike where
  | defaultdict (entries : List (String × Nat))
  | counter (entries : List (String × Nat))
deriving DecidableEq, Repr

/-- `.items()` — available on both dict types. -/
def counter_items : CounterLike → List (String × Nat)
  | CounterLike.defaultdict es => es
  | CounterLike.counter es => es

/-- Stable descending insertion by count, as `sorted(key=count,
reverse=True)` behaves (equal counts keep insertion order). -/
def insert_desc_nat (x : String × Nat) : List (String × Nat) → List (String × Nat)
  | [] => [x]
  | y :: ys => if y.2 < x.2 then x :: y :: ys else y :: insert_desc_nat x ys

/-- Stable descending sort by count. -/
def sort_desc_nat : List (String × Nat) → List (String × Nat)
  | [] => []
  | x :: xs => insert_desc_nat x (sort_desc_nat xs)

/-- The exception message raised by `analysis["tool_usage"].most_common(10)`
when the table is the `defaultdict(int)` that `analyze_graph_patterns`
builds. -/
def attribute_error_most_common : String :=
  "AttributeError: \x27collections.defaultdict\x27 object has no attribute \x27most_common\x27"

/-- Python attribute dispatch for `.most_common(n)`: defined on
`collections.Counter` (top-n by count, stable on ties), an
`AttributeError` on `defaultdict`. -/
def most_common (c : CounterLike) (n : Nat) : Except String (List (String × Nat)) :=
  match c with
  | CounterLike.counter es => Except.ok ((sort_desc_nat es).take n)
  | CounterLike.defaultdict _ => Except.error attribute_error_most_common

/-- `HypothesisGenerator._get_entity_name`: the first `schema:name`
object of the entity in graph order, else the first `rdfs:label` object,
else `None`. -/
def get_entity_name (g : Graph) (entity_uri : Term) : Option String :=
  match (g.filterMap (fun t =>
      if t.1 = entity_uri ∧ t.2.1 = SCHEMA_name then some t.2.2 else none)).head? with
  | some o => some (pyStr o)
  | none =>
      match (g.filterMap (fun t =>
          if t.1 = entity_uri ∧ t.2.1 = RDFS_label then some t.2.2 else none)).head? with
      | some o => some (pyStr o)
      | none => none

/-- `HypothesisGenerator._build_networkx_graph`: one `(str(subj), str(obj))`
edge per triple whose object is a URIRef. -/
def build_networkx_graph (g : Graph) : List (String × String) :=
  g.filterMap (fun t =>
    match t.2.2 with
    | Term.uri o => some (pyStr t.1, o)
    | Term.lit _ => none)

/-- Nodes of the NetworkX graph in insertion order (`add_edge` inserts
the endpoints left to right). -/
def nx_nodes (edges : List (String × String)) : List String :=
  edges.foldl (fun acc e => pySetAdd (pySetAdd acc e.1) e.2) []

/-- Distinct neighbours of a node in the (simple, undirected) NetworkX
graph; a self-loop makes the node its own neighbour. -/
def nx_neighbors (edges : List (String × String)) (v : String) : List String :=
  ((edges.filterMap (fun e => if e.1 = v then some e.2 else none))
    ++ (edges.filterMap (fun e => if e.2 = v then some e.1 else none))).dedup

/-- NetworkX node degree: the number of distinct neighbours, counting a
self-loop twice. -/
def nx_degree (edges : List (String × String)) (v : String) : Nat :=
  (nx_neighbors edges v).length + (if (v, v) ∈ edges then 1 else 0)

/-- `networkx.degree_centrality`: degree divided by `n - 1`; a graph with
at most one node short-circuits to centrality 1 for each node. -/
def degree_centrality (edges : List (String × String)) : List (String × ℚ) :=
  let ns := nx_nodes edges
  if ns.length ≤ 1 then ns.map (fun v => (v, 1))
  else ns.map (fun v => (v, (nx_degree edges v : ℚ) * (1 / ((ns.length : ℚ) - 1))))

/-- Stable descending insertion by centrality, as `sorted(key=lambda x:
x[1], reverse=True)` behaves. -/
def insert_desc_q (x : String × ℚ) : List (String × ℚ) → List (String × ℚ)
  | [] => [x]
  | y :: ys => if y.2 < x.2 then x :: y :: ys else y :: insert_desc_q x ys

/-- Stable descending sort by centrality. -/
def sort_desc_q : List (String × ℚ) → List (String × ℚ)
  | [] => []
  | x :: xs => insert_desc_q x (sort_desc_q xs)

/-- The analysis dict built by `analyze_graph_patterns`, with its fields
in source order.  `author_collaborations` and `research_gaps` are
initialized and never populated. -/
structure Analysis where
  entity_counts : List (String × Nat)
  relationship_counts : List (String × Nat)
  tool_usage : CounterLike
  dataset_usage : CounterLike
  author_collaborations : List (String × Nat)
  reproducibility_scores : List ℚ
  highly_connected_entities : List (String × ℚ)
  research_gaps : List String
deriving Repr

/-- `HypothesisGenerator.analyze_graph_patterns`: entity-type and
relationship counts, tool/dataset usage tables (as `defaultdict(int)`),
the numeric reproducibility scores, and the top-10 entities by degree
centrality (left empty when the co-reference graph has no nodes). -/
def analyze_graph_patterns (g : Graph) : Analysis :=
  let counts := g.foldl (fun (acc : List (String × Nat) × List (String × Nat)) t =>
      if t.2.1 = RDF_type then (bump acc.1 (pyStr t.2.2), acc.2)
      else (acc.1, bump acc.2 (pyStr t.2.1))) ([], [])
  let tool_usage := g.foldl (fun acc t =>
      if t.2.1 = SCIENTIFIC_usesTool then
        match get_entity_name g t.2.2 with
        | some n => bump acc n
        | none => acc
      else acc) []
  let dataset_usage := g.foldl (fun acc t =>
      if t.2.1 = SCIENTIFIC_usesDataset then
        match get_entity_name g t.2.2 with
        | some n => bump acc n
        | none => acc
      else acc) []
  let scores := g.filterMap (fun t =>
      if t.2.1 = REPRO_reproducibilityScore then pyFloat t.2.2 else none)
  let edges := build_networkx_graph g
  let highly_connected :=
    if (nx_nodes edges).isEmpty then []
    else (sort_desc_q (degree_centrality edges)).take 10
  ⟨counts.1, counts.2, CounterLike.defaultdict tool_usage,
   CounterLike.defaultdict dataset_usage, [], scores, highly_connected, []⟩

/-- `HypothesisGenerator._count_combined_tool_usage`: collect the sets of
papers using each tool (by resolved entity name, `elif` giving the first
tool priority), and return the size of their intersection. -/
def count_combined_tool_usage (g : Graph) (tool1 tool2 : String) : Nat :=
  let sets := g.foldl (fun (acc : List Term × List Term) t =>
      if t.2.1 = SCIENTIFIC_usesTool then
        let tool_name := get_entity_name g t.2.2
        if tool_name = some tool1 then (pySetAdd acc.1 t.1, acc.2)
        else if tool_name = some tool2 then (acc.1, pySetAdd acc.2 t.1)
        else acc
      else acc) ([], [])
  (sets.1.filter (fun p => p ∈ sets.2)).length

/-- An opportunity record; the payload field differs per kind exactly as
the dict literals in `find_research_opportunities` do. -/
inductive Opportunity where
  | tool_combination (description : String) (tools : String × String) (rationale : String)
  | dataset_reuse (description : String) (dataset : String) (rationale : String)
  | reproducibility_improvement (description : String) (current_avg_score : ℚ) (rationale : String)
deriving DecidableEq, Repr

/-- The nested pair loop of `find_research_opportunities`
(`for i, tool1 in enumerate(keys): for tool2 in keys[i+1:］`): one
`tool_combination` opportunity per later-ranked partner with zero
combined usage. -/
def tool_combination_opportunities (g : Graph) : List String → List Opportunity
  | [] => []
  | t1 :: rest =>
      (rest.filterMap (fun t2 =>
        if count_combined_tool_usage g t1 t2 = 0 then
          some (Opportunity.tool_combination
            ("Explore combining " ++ t1 ++ " with " ++ t2) (t1, t2)
            "These popular tools haven\x27t been used together in existing research")
        else none))
      ++ tool_combination_opportunities g rest

/-- `HypothesisGenerator.find_research_opportunities`.  Its first
statement, `dict(analysis["tool_usage"].most_common(10))`, invokes the
`Counter` method `most_common` on the `defaultdict(int)` built by
`analyze_graph_patterns`, so the call raises `AttributeError` before any
opportunity is produced; the remaining body (pair loop, dataset-reuse
rule, reproducibility rule) is embedded as written. -/
def find_research_opportunities (g : Graph) (analysis : Analysis) :
    Except String (List Opportunity) :=
  match most_common analysis.tool_usage 10 with
  | Except.error e => Except.error e
  | Except.ok popular =>
      let popular_tools := popular.map Prod.fst
      let tool_opps := tool_combination_opportunities g popular_tools
      let underused_datasets :=
        ((counter_items analysis.dataset_usage).filter (fun kv => kv.2 = 1)).map Prod.fst
      let dataset_opps := (underused_datasets.take 5).map (fun d =>
        Opportunity.dataset_reuse ("Apply different methodologies to " ++ d) d
          "This dataset has been underutilized in research")
      let repro_opps :=
        if analysis.reproducibility_scores.isEmpty then []
        else
          let avg := analysis.reproducibility_scores.sum /
            (analysis.reproducibility_scores.length : ℚ)
          if avg < 7 / 10 then
            [Opportunity.reproducibility_improvement
              "Develop better reproducibility practices" avg
              "Current research shows low reproducibility scores"]
          else []
      Except.ok (tool_opps ++ dataset_opps ++ repro_opps)

/-- A value in a hypothesis record: the dict literals in
`_generate_rule_based_hypotheses` hold strings, string lists, and one
numeric field. -/
inductive HVal where
  | s (v : String)
  | list (vs : List String)
  | num (q : ℚ)
deriving DecidableEq, Repr

/-- A hypothesis record: an insertion-ordered dict, as the Python dict
literals construct it. -/
abbrev HDict := List (String × HVal)

/-- The dict literal built for one opportunity by the loop body of
`_generate_rule_based_hypotheses`: the `tool_combination` and
`dataset_reuse` templates fill in the opportunity's own payload; every
other kind gets the generic reproducibility-improvement template. -/
def hypothesis_template : Opportunity → HDict
  | Opportunity.tool_combination _ (t1, t2) rationale =>
      [("hypothesis", HVal.s ("Combining " ++ t1 ++ " and " ++ t2 ++
          " will improve research outcomes")),
       ("rationale", HVal.s rationale),
       ("methodology", HVal.s ("Develop integrated workflow using both " ++ t1 ++
          " and " ++ t2)),
       ("required_resources", HVal.list [t1, t2]),
       ("expected_impact", HVal.s "Improved computational efficiency and accuracy"),
       ("feasibility", HVal.s "medium"),
       ("novelty_score", HVal.num (7 / 10))]
  | Opportunity.dataset_reuse _ dataset rationale =>
      [("hypothesis", HVal.s ("Applying machine learning methods to " ++ dataset ++
          " will reveal new insights")),
       ("rationale", HVal.s rationale),
       ("methodology", HVal.s ("Apply modern ML techniques to analyze " ++ dataset)),
       ("required_resources", HVal.list [dataset, "machine learning tools"]),
       ("expected_impact", HVal.s "Discovery of previously unknown patterns"),
       ("feasibility", HVal.s "high"),
       ("novelty_score", HVal.num (6 / 10))]
  | Opportunity.reproducibility_improvement _ _ _ =>
      [("hypothesis", HVal.s "Improving research reproducibility through automated validation"),
       ("rationale", HVal.s "Current reproducibility scores are low"),
       ("methodology", HVal.s "Develop automated reproducibility assessment tools"),
       ("required_resources", HVal.list ["containerization", "automated testing"]),
       ("expected_impact", HVal.s "Higher reproducibility across scientific research"),
       ("feasibility", HVal.s "medium"),
       ("novelty_score", HVal.num (5 / 10))]

/-- `HypothesisGenerator._generate_rule_based_hypotheses`: one templated
record per opportunity in `opportunities[:num_hypotheses]`.  The
`analysis` argument is accepted and, as in the source, never read. -/
def generate_rule_based_hypotheses (_analysis : Analysis)
    (opportunities : List Opportunity) (num_hypotheses : Nat) : List HDict :=
  (opportunities.take num_hypotheses).map hypothesis_template

/-- Whether the first character list is a prefix of the second. -/
def startsWithList : List Char → List Char → Bool
  | [], _ => true
  | _ :: _, [] => false
  | a :: as, b :: bs => a = b && startsWithList as bs

/-- Whether the first character list occurs contiguously in the second. -/
def containsSub : List Char → List Char → Bool
  | needle, [] => needle.isEmpty
  | needle, c :: rest => startsWithList needle (c :: rest) || containsSub needle rest

/-- Model of Python's `needle in haystack` on strings. -/
def pyIn (needle haystack : String) : Bool :=
  containsSub needle.toList haystack.toList

/-- ASCII lowercasing of one character, as `str.lower()` acts on the
model-name strings this module dispatches on. -/
def pyCharLower (c : Char) : Char :=
  if 'A' ≤ c ∧ c ≤ 'Z' then Char.ofNat (c.toNat + 32) else c

/-- Model of `str.lower()` (ASCII range; model names are ASCII). -/
def pyLower (s : String) : String :=
  String.mk (s.toList.map pyCharLower)

/-- `HypothesisGenerator._generate_with_openai`, with the vendor call and
the `json.loads` of its response modelled by the `response` oracle
(`Except.error` = any exception raised inside the helper); on success the
parsed array is truncated to `num_hypotheses`. -/
def generate_with_openai (response : Except String (List HDict))
    (num_hypotheses : Nat) : Except String (List HDict) :=
  response.map (fun hs => hs.take num_hypotheses)

/-- `HypothesisGenerator._generate_with_anthropic`, modelled like the
OpenAI helper. -/
def generate_with_anthropic (response : Except String (List HDict))
    (num_hypotheses : Nat) : Except String (List HDict) :=
  response.map (fun hs => hs.take num_hypotheses)

/-- `HypothesisGenerator._generate_with_gemini`, modelled like the
OpenAI helper. -/
def generate_with_gemini (response : Except String (List HDict))
    (num_hypotheses : Nat) : Except String (List HDict) :=
  response.map (fun hs => hs.take num_hypotheses)

/-- `HypothesisGenerator.generate_hypotheses_with_llm`: without an API
key, the rule-based path; otherwise dispatch on substrings of the
lowercased model name (`gpt`, then `claude`, then `gemini`); an unknown
model name falls back to the rule-based path directly, and any exception
raised by a vendor helper is caught by the `try` and also falls back.
The three oracles stand for the outcomes of the three vendor calls. -/
def generate_hypotheses_with_llm (api_key : Option String) (model : String)
    (openai_response anthropic_response gemini_response : Except String (List HDict))
    (analysis : Analysis) (opportunities : List Opportunity)
    (num_hypotheses : Nat) : List HDict :=
  match api_key with
  | none => generate_rule_based_hypotheses analysis opportunities num_hypotheses
  | some _ =>
      let attempt : Except String (List HDict) :=
        if pyIn "gpt" (pyLower model) then
          generate_with_openai openai_response num_hypotheses
        else if pyIn "claude" (pyLower model) then
          generate_with_anthropic anthropic_response num_hypotheses
        else if pyIn "gemini" (pyLower model) then
          generate_with_gemini gemini_response num_hypotheses
        else Except.error "unknown model: rule-based fallback"
      match attempt with
      | Except.ok hypotheses => hypotheses
      | Except.error _ =>
          generate_rule_based_hypotheses analysis opportunities num_hypotheses

/-- The `novelty_score` contribution of one hypothesis record in the
report summary: `h.get("novelty_score", 0)` (the records produced by
this module always carry a numeric score; a missing key contributes 0). -/
def hyp_novelty (h : HDict) : ℚ :=
  match List.lookup "novelty_score" h with
  | some (HVal.num q) => q
  | _ => 0

/-- The `avg_novelty_score` summary field of `generate_research_report`:
`sum(h.get("novelty_score", 0) for h in hypotheses) / len(hypotheses) if
hypotheses else 0`. -/
def summary_avg_novelty (hypotheses : List HDict) : ℚ :=
  if hypotheses = [] then 0
  else (hypotheses.map hyp_novelty).sum / (hypotheses.length : ℚ)

/-- The seven required hypothesis fields. -/
def required_hypothesis_fields : List String :=
  ["hypothesis", "rationale", "methodology", "required_resources",
   "expected_impact", "feasibility", "novelty_score"]

/-- Whether a hypothesis record carries all seven required fields. -/
def has_all_required_fields (h : HDict) : Bool :=
  required_hypothesis_fields.all (fun k => (List.lookup k h).isSome)

/-- C1: the claim describes the tool-combination opportunities the miner
outputs; the code refutes it on every knowledge graph: the miner's first
statement calls `most_common` on the `defaultdict(int)` usage table that
`analyze_graph_patterns` built, so `find_research_opportunities` raises
`AttributeError` before producing any opportunity — in particular on any
graph whose top-10 tools contain a never-co-occurring pair. -/
theorem claim1_miner_raises_attribute_error :
    ∀ g gp : Graph, find_research_opportunities g (analyze_graph_patterns gp) =
      Except.error attribute_error_most_common := by
  intro g gp; rfl

/-- C3: on the empty graph the Pattern Analyzer returns with the empty
centrality list and the Hypothesis Synthesizer returns the empty default
without raising, but the Opportunity Miner — contrary to the claim —
raises `AttributeError` instead of returning an empty opportunity
list. -/
theorem claim3_empty_graph :
    (analyze_graph_patterns []).highly_connected_entities = [] ∧
    find_research_opportunities [] (analyze_graph_patterns []) =
      Except.error attribute_error_most_common ∧
    generate_hypotheses_with_llm none "gemini-pro" (Except.error "unreached")
      (Except.error "unreached") (Except.error "unreached")
      (analyze_graph_patterns []) [] 5 = [] :=
  ⟨rfl, rfl, rfl⟩

/-- C2 (counterexample): the claim states the fallback returns exactly
`count` records, padding when opportunities run short; with no
opportunities and `count = 1` the fallback returns the empty list. -/
theorem claim2_counterexample :
    (generate_rule_based_hypotheses (analyze_graph_patterns []) [] 1).length ≠ 1 := by
  decide

/-- Every template the fallback emits carries all seven required
fields. -/
theorem hypothesis_template_fields (opp : Opportunity) :
    has_all_required_fields (hypothesis_template opp) = true := by
  cases opp <;> rfl

/-- C2 (amended): whenever at least `count` opportunities exist the
fallback returns exactly `count` hypothesis records, each containing all
seven required fields; when fewer than `count` opportunities exist it
returns one record per opportunity — the result is shorter than `count`,
not padded with a generic reproducibility-improvement hypothesis. -/
theorem claim2_amended (analysis : Analysis) (opportunities : List Opportunity)
    (num_hypotheses : Nat) :
    (num_hypotheses ≤ opportunities.length →
      (generate_rule_based_hypotheses analysis opportunities num_hypotheses).length =
        num_hypotheses) ∧
    (opportunities.length < num_hypotheses →
      (generate_rule_based_hypotheses analysis opportunities num_hypotheses).length =
        opportunities.length) ∧
    ∀ h ∈ generate_rule_based_hypotheses analysis opportunities num_hypotheses,
      has_all_required_fields h = true := by
  refine ⟨?_, ?_, ?_⟩
  · intro h
    simp [generate_rule_based_hypotheses]
    omega
  · intro h
    simp [generate_rule_based_hypotheses]
    omega
  · intro h hm
    simp only [generate_rule_based_hypotheses, List.mem_map] at hm
    obtain ⟨opp, _, rfl⟩ := hm
    exact hypothesis_template_fields opp

/-- A concrete dataset-reuse opportunity used by the C2 witness. -/
def example_opportunity : Opportunity :=
  Opportunity.dataset_reuse "Apply different methodologies to DS1" "DS1"
    "This dataset has been underutilized in research"

/-- Witness for C2 (amended): one opportunity, exercising both the
`count = 1` (enough opportunities) and `count = 2` (too few) branches. -/
theorem claim2_amended_witness :
    (generate_rule_based_hypotheses (analyze_graph_patterns [])
        [example_opportunity] 1).length = 1 ∧
    (generate_rule_based_hypotheses (analyze_graph_patterns [])
        [example_opportunity] 2).length = [example_opportunity].length ∧
    has_all_required_fields (hypothesis_template example_opportunity) = true :=
  ⟨(claim2_amended (analyze_graph_patterns []) [example_opportunity] 1).1 (by decide),
   (claim2_amended (analyze_graph_patterns []) [example_opportunity] 2).2.1 (by decide),
   (claim2_amended (analyze_graph_patterns []) [example_opportunity] 2).2.2
     (hypothesis_template example_opportunity)
     (by simp [generate_rule_based_hypotheses])⟩

/-- C4: hypothesis generation never surfaces a backend error — with no
API key configured, with a model name matching no known vendor, or with
the matched vendor call (or the parsing of its response) raising, the
result is exactly the deterministic rule-based output. -/
theorem claim4_backend_errors_fall_back (model api_key : String)
    (o1 o2 o3 : Except String (List HDict)) (analysis : Analysis)
    (opportunities : List Opportunity) (num_hypotheses : Nat) :
    (generate_hypotheses_with_llm none model o1 o2 o3 analysis opportunities
        num_hypotheses =
      generate_rule_based_hypotheses analysis opportunities num_hypotheses) ∧
    (pyIn "gpt" (pyLower model) = false → pyIn "claude" (pyLower model) = false →
      pyIn "gemini" (pyLower model) = false →
      generate_hypotheses_with_llm (some api_key) model o1 o2 o3 analysis
          opportunities num_hypotheses =
        generate_rule_based_hypotheses analysis opportunities num_hypotheses) ∧
    (∀ e, pyIn "gpt" (pyLower model) = true → o1 = Except.error e →
      generate_hypotheses_with_llm (some api_key) model o1 o2 o3 analysis
          opportunities num_hypotheses =
        generate_rule_based_hypotheses analysis opportunities num_hypotheses) ∧
    (∀ e, pyIn "gpt" (pyLower model) = false → pyIn "claude" (pyLower model) = true →
      o2 = Except.error e →
      generate_hypotheses_with_llm (some api_key) model o1 o2 o3 analysis
          opportunities num_hypotheses =
        generate_rule_based_hypotheses analysis opportunities num_hypotheses) ∧
    (∀ e, pyIn "gpt" (pyLower model) = false → pyIn "claude" (pyLower model) = false →
      pyIn "gemini" (pyLower model) = true → o3 = Except.error e →
      generate_hypotheses_with_llm (some api_key) model o1 o2 o3 analysis
          opportunities num_hypotheses =
        generate_rule_based_hypotheses analysis opportunities num_hypotheses) := by
  refine ⟨rfl, ?_, ?_, ?_, ?_⟩
  · intro h1 h2 h3
    simp [generate_hypotheses_with_llm, h1, h2, h3]
  · intro e h1 ho
    simp [generate_hypotheses_with_llm, h1, ho, generate_with_openai, Except.map]
  · intro e h1 h2 ho
    simp [generate_hypotheses_with_llm, h1, h2, ho, generate_with_anthropic, Except.map]
  · intro e h1 h2 h3 ho
    simp [generate_hypotheses_with_llm, h1, h2, h3, ho, generate_with_gemini, Except.map]

/-- Witness for C4: a `gpt` model whose backend call fails. -/
theorem claim4_witness :
    generate_hypotheses_with_llm (some "sk-test") "gpt-4" (Except.error "timeout")
      (Except.ok []) (Except.ok []) (analyze_graph_patterns []) [] 5 =
    generate_rule_based_hypotheses (analyze_graph_patterns []) [] 5 :=
  (claim4_backend_errors_fall_back "gpt-4" "sk-test" (Except.error "timeout")
    (Except.ok []) (Except.ok []) (analyze_graph_patterns []) [] 5).2.2.1
    "timeout" (by decide) rfl

/-- A hypothesis record with novelty score 0.2. -/
def example_low_novelty : HDict := [("novelty_score", HVal.num (1 / 5))]

/-- A hypothesis record with novelty score 0.8. -/
def example_high_novelty : HDict := [("novelty_score", HVal.num (4 / 5))]

/-- C9: the report's `avg_novelty_score` is 0 on an empty hypothesis
list, 0.5 over novelty scores 0.2 and 0.8, and in general multiplies
back to the sum of the (default-0) novelty scores — the arithmetic
mean. -/
theorem claim9_avg_novelty :
    summary_avg_novelty [] = 0 ∧
    summary_avg_novelty [example_low_novelty, example_high_novelty] = 1 / 2 ∧
    ∀ hypotheses : List HDict, hypotheses ≠ [] →
      summary_avg_novelty hypotheses * (hypotheses.length : ℚ) =
        (hypotheses.map hyp_novelty).sum := by
  refine ⟨rfl, ?_, ?_⟩
  · have hne : ([example_low_novelty, example_high_novelty] : List HDict) ≠ [] := by simp
    unfold summary_avg_novelty
    rw [if_neg hne]
    norm_num [hyp_novelty, example_low_novelty, example_high_novelty, List.lookup]
  · intro hypotheses h
    unfold summary_avg_novelty
    rw [if_neg h]
    exact div_mul_cancel₀ _ (Nat.cast_ne_zero.mpr (List.length_pos.mpr h).ne')

/-- Witness for C9 at a one-element hypothesis list. -/
theorem claim9_witness :
    summary_avg_novelty [example_low_novelty] *
        (([example_low_novelty] : List HDict).length : ℚ) =
      (([example_low_novelty] : List HDict).map hyp_novelty).sum :=
  claim9_avg_novelty.2.2 [example_low_novelty] (by simp)
